import Mathlib

/-!
Verification of the PM-AI agent core (command router, structured-response
extractor, plan executor, task-modification resolver, health analyzer).
Text is modeled as `List Char`; Python string operations (`lower`, `upper`,
`strip`, `split`, substring `in`, slicing) are embedded as explicit
functions on character lists.
-/

set_option maxRecDepth 20000

namespace PMAgent

/-- Python `needle in hay` substring containment. -/
def isSubstring (needle : List Char) : List Char → Bool
  | [] => needle.isEmpty
  | c :: rest => needle.isPrefixOf (c :: rest) || isSubstring needle rest

/-- Python `str.lower()` on the ASCII range (prompts routed by the agent). -/
def lowerChars (s : List Char) : List Char := s.map Char.toLower

/-- Python `str.upper()` on the ASCII range. -/
def upperChars (s : List Char) : List Char := s.map Char.toUpper

/-! ## Command Router (src/backend/app/routes/agent.py, execute_agent_command)

The route lowers the prompt (line 53) and tests keyword groups with
`any(kw in prompt for kw in [...])` in an if/elif chain.  Each group below
copies the keyword list of one branch, in source order. -/

/-- The capability selected by one branch of the if/elif chain. -/
inductive Capability
  | createProject
  | createTasks
  | modifyTask
  | projectHealth
  | createTask
  | breakdownTask
  | generateEstimates
  | prioritizeBacklog
  | healthSummary
  | generatePlan
deriving DecidableEq, Repr

/-- Keywords of branch 1, project creation (agent.py line 62). -/
def kwProjectCreation : List String := ["create project", "new project", "generate plan"]

/-- Keywords of branch 2, bulk task creation (agent.py line 91). -/
def kwBulkTasks : List String :=
  ["create tasks", "generate tasks", "to do list", "todo list", "tasks for"]

/-- Keywords of branch 3, task modification (agent.py line 183). -/
def kwModification : List String := ["update", "change", "move", "delete", "remove", "reassign"]

/-- Keywords of branch 4, project health (agent.py line 208). -/
def kwHealth : List String := ["health", "status", "how is the project", "progress", "burnout"]

/-- Keywords of branch 5, single task creation (agent.py line 238). -/
def kwSingleTask : List String :=
  ["add task", "create task", "new task", "task for", "create a task", "add a task"]

/-- Keywords of the breakdown branch (agent.py line 299). -/
def kwBreakdown : List String := ["break down", "breakdown", "split", "subtasks for"]

/-- Keywords of the estimation branch (agent.py line 314). -/
def kwEstimation : List String := ["estimate", "how long", "time needed", "cost"]

/-- Keywords of the prioritization branch (agent.py line 338). -/
def kwPrioritization : List String := ["prioritize", "priority", "order backlog", "rank"]

/-- Keywords of the second health-summary branch (agent.py line 359). -/
def kwHealthSummary : List String := ["health", "status", "summary", "how is", "progress"]

/-- `any(kw in prompt for kw in kws)` against an already lowered prompt. -/
def promptHasAny (kws : List String) (p : List Char) : Bool :=
  kws.any (fun k => isSubstring k.data p)

/-- The if/elif dispatch of execute_agent_command (agent.py lines 62-394):
branches in source order, final else generates a fresh plan. -/
def classify (prompt : String) : Capability :=
  let p := lowerChars prompt.data
  if promptHasAny kwProjectCreation p then .createProject
  else if promptHasAny kwBulkTasks p then .createTasks
  else if promptHasAny kwModification p then .modifyTask
  else if promptHasAny kwHealth p then .projectHealth
  else if promptHasAny kwSingleTask p then .createTask
  else if promptHasAny kwBreakdown p then .breakdownTask
  else if promptHasAny kwEstimation p then .generateEstimates
  else if promptHasAny kwPrioritization p then .prioritizeBacklog
  else if promptHasAny kwHealthSummary p then .healthSummary
  else .generatePlan

/-- Ordered first-match dispatch over a priority list of keyword groups. -/
def dispatchFirstMatch (dflt : Capability) :
    List (List String × Capability) → List Char → Capability
  | [], _ => dflt
  | (kws, c) :: rest, p =>
      if promptHasAny kws p then c else dispatchFirstMatch dflt rest p

/-- The priority order asserted by the claim: eight keyword groups, then the
default plan-generation branch (written from the words of the spec). -/
def claimedPriorityGroups : List (List String × Capability) :=
  [(kwProjectCreation, .createProject), (kwBulkTasks, .createTasks),
   (kwModification, .modifyTask), (kwHealth, .projectHealth),
   (kwSingleTask, .createTask), (kwBreakdown, .breakdownTask),
   (kwEstimation, .generateEstimates), (kwPrioritization, .prioritizeBacklog)]

/-- Classification as the claim states it: the eight listed groups in order,
anything else falling to default plan generation. -/
def classifyClaimed (prompt : String) : Capability :=
  dispatchFirstMatch .generatePlan claimedPriorityGroups (lowerChars prompt.data)

/-- The priority order actually implemented: the eight claimed groups plus the
legacy health-summary group before the default branch. -/
def routerGroups : List (List String × Capability) :=
  claimedPriorityGroups ++ [(kwHealthSummary, .healthSummary)]

/-! ## Structured-Response Extractor (src/backend/app/agent/agent_service.py)

Every generator runs the code-fence stripper
  if "```json" in content: content = content.split("```json")[1].split("```")[0].strip()
  elif "```" in content:   content = content.split("```")[1].split("```")[0].strip()
Only generate_project_plan (lines 57-61) additionally slices from the first
open brace to the last close brace before json.loads. -/

/-- Python whitespace as stripped by `str.strip()`. -/
def pyIsSpace (c : Char) : Bool :=
  c = ' ' || c = '\t' || c = '\n' || c = '\r' || c = '\x0b' || c = '\x0c'

/-- Python `str.strip()`. -/
def pyStrip (s : List Char) : List Char :=
  ((s.dropWhile pyIsSpace).reverse.dropWhile pyIsSpace).reverse

/-- The suffix strictly after the first occurrence of sep, none when sep does
not occur.  `s.split(sep)[1]` starts here. -/
def afterFirst (sep : List Char) : List Char → Option (List Char)
  | [] => if sep.isPrefixOf ([] : List Char) then some [] else none
  | c :: rest =>
      if sep.isPrefixOf (c :: rest) then some ((c :: rest).drop sep.length)
      else afterFirst sep rest

/-- The prefix up to (excluding) the first occurrence of sep, the whole list
when sep does not occur.  This is `s.split(sep)[0]`. -/
def upToFirst (sep : List Char) : List Char → List Char
  | [] => []
  | c :: rest => if sep.isPrefixOf (c :: rest) then [] else c :: upToFirst sep rest

/-- Code-fence stripping shared by every generator.  The source expression
`content.split(sep)[1].split("```")[0]` takes the text strictly after the
first occurrence of sep up to the next triple backtick, which is exactly
`upToFirst` after `afterFirst` (the segment split off at the second occurrence
of sep cannot contain an earlier triple backtick than the raw suffix does,
since sep itself starts with one). -/
def stripCodeFences (content : List Char) : List Char :=
  match afterFirst "```json".data content with
  | some rest => pyStrip (upToFirst "```".data rest)
  | none =>
      match afterFirst "```".data content with
      | some rest => pyStrip (upToFirst "```".data rest)
      | none => content

/-- Index of the first occurrence of a character, Python `str.find`. -/
def firstIdxOf (ch : Char) (s : List Char) : Option Nat :=
  s.findIdx? (· = ch)

/-- Index of the last occurrence of a character, Python `str.rfind`. -/
def lastIdxOf (ch : Char) (s : List Char) : Option Nat :=
  match (s.reverse).findIdx? (· = ch) with
  | some r => some (s.length - 1 - r)
  | none => none

/-- The brace-slicing step of generate_project_plan (agent_service.py lines
57-61): when both an open and a close brace exist, keep `content[start:end+1]`. -/
def braceSlice (content : List Char) : List Char :=
  match firstIdxOf '\x7b' content, lastIdxOf '\x7d' content with
  | some s, some e => (content.take (e + 1)).drop s
  | _, _ => content

/-- The full pre-parse text transformation of generate_project_plan
(agent_service.py lines 52-61): fence stripping, then brace slicing. -/
def planExtractContent (content : List Char) : List Char :=
  let c1 := stripCodeFences content
  braceSlice c1

/-- The pre-parse text transformation of breakdown_task (agent_service.py
lines 98-101): fence stripping only, no brace slicing. -/
def breakdownExtractContent (content : List Char) : List Char :=
  stripCodeFences content

/-! ## JSON parsing (model of the standard library json.loads)

json.loads is an external collaborator of the repository; the parser below
models its grammar (objects, arrays, strings with the simple escapes, numbers,
true/false/null, strict whitespace).  Unicode escape sequences and the
nonstandard NaN/Infinity literals are outside the modeled subset; no claim
depends on them. -/

/-- A parsed JSON value.  Numeric payloads are not inspected by any claim and
are not recorded. -/
inductive JVal
  | jnull
  | jbool (b : Bool)
  | jnum
  | jstr (s : List Char)
  | jarr (elems : List JVal)
  | jobj (fields : List (List Char × JVal))

/-- Whether json.loads produced a Python dict. -/
def JVal.isObj : JVal → Bool
  | .jobj _ => true
  | _ => false

/-- JSON inter-token whitespace. -/
def skipWs (s : List Char) : List Char :=
  s.dropWhile (fun c => c = ' ' || c = '\t' || c = '\n' || c = '\r')

/-- Parse the body of a JSON string after the opening quote, returning the
decoded content and the remaining input. -/
def parseStrBody : Nat → List Char → Option (List Char × List Char)
  | 0, _ => none
  | Nat.succ fuel, input =>
    match input with
    | [] => none
    | c :: rest =>
      if c = '"' then some ([], rest)
      else if c = '\\' then
        match rest with
        | [] => none
        | e :: rest2 =>
          let dec : Option Char :=
            if e = '"' then some '"' else if e = '\\' then some '\\'
            else if e = '/' then some '/' else if e = 'n' then some '\n'
            else if e = 't' then some '\t' else if e = 'r' then some '\r'
            else if e = 'b' then some '\x08' else if e = 'f' then some '\x0c'
            else none
          match dec with
          | none => none
          | some d =>
            match parseStrBody fuel rest2 with
            | some (str, r) => some (d :: str, r)
            | none => none
      else if c.toNat < 32 then none
      else
        match parseStrBody fuel rest with
        | some (str, r) => some (c :: str, r)
        | none => none

/-- Parse a JSON number (sign, integer part, optional fraction and exponent),
returning the remaining input. -/
def parseNumber (s : List Char) : Option (JVal × List Char) := do
  let t := match s with | '-' :: r => r | _ => s
  let t1 ← (match t with
    | [] => none
    | c :: rest =>
      if c = '0' then some rest
      else if c.isDigit then some (rest.dropWhile Char.isDigit)
      else none)
  let t2 ← (match t1 with
    | '.' :: r =>
      (match r with
       | c :: rr => if c.isDigit then some (rr.dropWhile Char.isDigit) else none
       | [] => none)
    | _ => some t1)
  let t3 ← (match t2 with
    | c :: r =>
      if c = 'e' || c = 'E' then
        (let r2 := match r with | '+' :: rr => rr | '-' :: rr => rr | _ => r
         match r2 with
         | c2 :: rr2 => if c2.isDigit then some (rr2.dropWhile Char.isDigit) else none
         | [] => none)
      else some t2
    | [] => some t2)
  pure (JVal.jnum, t3)

mutual

/-- Parse one JSON value, returning it and the remaining input. -/
def parseVal : Nat → List Char → Option (JVal × List Char)
  | 0, _ => none
  | Nat.succ fuel, input =>
    match skipWs input with
    | [] => none
    | c :: rest =>
      if c = '"' then
        match parseStrBody fuel rest with
        | some (s, r) => some (.jstr s, r)
        | none => none
      else if c = '\x7b' then
        match skipWs rest with
        | '\x7d' :: r2 => some (.jobj [], r2)
        | _ =>
          match parseMembers fuel rest with
          | some (fs, r) => some (.jobj fs, r)
          | none => none
      else if c = '[' then
        match skipWs rest with
        | ']' :: r2 => some (.jarr [], r2)
        | _ =>
          match parseElems fuel rest with
          | some (es, r) => some (.jarr es, r)
          | none => none
      else if c = 't' then
        if "rue".data.isPrefixOf rest then some (.jbool true, rest.drop 3) else none
      else if c = 'f' then
        if "alse".data.isPrefixOf rest then some (.jbool false, rest.drop 4) else none
      else if c = 'n' then
        if "ull".data.isPrefixOf rest then some (.jnull, rest.drop 3) else none
      else parseNumber (c :: rest)

/-- Parse the members of a JSON object after the opening brace, including the
closing brace. -/
def parseMembers : Nat → List Char → Option (List (List Char × JVal) × List Char)
  | 0, _ => none
  | Nat.succ fuel, input =>
    match skipWs input with
    | '"' :: rest =>
      match parseStrBody fuel rest with
      | none => none
      | some (key, r1) =>
        match skipWs r1 with
        | ':' :: r2 =>
          match parseVal fuel r2 with
          | none => none
          | some (v, r3) =>
            match skipWs r3 with
            | ',' :: r4 =>
              match parseMembers fuel r4 with
              | some (fs, r5) => some ((key, v) :: fs, r5)
              | none => none
            | '\x7d' :: r4 => some ([(key, v)], r4)
            | _ => none
        | _ => none
    | _ => none

/-- Parse the elements of a JSON array after the opening bracket, including
the closing bracket. -/
def parseElems : Nat → List Char → Option (List JVal × List Char)
  | 0, _ => none
  | Nat.succ fuel, input =>
    match parseVal fuel input with
    | none => none
    | some (v, r) =>
      match skipWs r with
      | ',' :: r2 =>
        match parseElems fuel r2 with
        | some (es, r3) => some (v :: es, r3)
        | none => none
      | ']' :: r2 => some ([v], r2)
      | _ => none

end

/-- Model of json.loads: parse one value and require only whitespace after it
(otherwise json.loads raises, here none). -/
def pyJsonLoads (s : List Char) : Option JVal :=
  match parseVal (2 * s.length + 4) s with
  | some (v, rest) => if (skipWs rest).isEmpty then some v else none
  | none => none

/-! ## Task-list generation fallback (agent_service.py, generate_task_list,
lines 275-295)

After the fence strip, the source parses `content` and, when parsing fails
(or yields a non-dict) with `len(content) < 500`, returns a clarification
dict holding `content` itself.  `stripCodeFences raw` plays the role of the
local variable `content`. -/

/-- Outcome of the generate_task_list parsing stage: a clarification
question dict, a parsed value, or the ValueError raised for long unparsable
responses. -/
inductive TaskListOutcome
  | question (t : List Char)
  | value (v : JVal)
  | parseError

/-- The response-processing tail of generate_task_list: fence strip, parse,
short-response clarification fallback (agent_service.py lines 275-293). -/
def generate_task_list_post (raw : List Char) : TaskListOutcome :=
  match pyJsonLoads (stripCodeFences raw) with
  | some v =>
      if !v.isObj && (stripCodeFences raw).length < 500 then
        .question (stripCodeFences raw)
      else .value v
  | none =>
      if (stripCodeFences raw).length < 500 then .question (stripCodeFences raw)
      else .parseError

/-! ## Entity store and agent tools (src/backend/app/agent/tools.py)

The database session is modeled as a store of record lists; each tool call is
one independent commit.  `fail : Nat → Bool` is a fault oracle on the running
commit index: `fail k = true` means the k-th store commit of the request
raises (connection loss, constraint violation); the error value carries the
store as already committed, since committed entities are never rolled back. -/

/-- A persisted Project row (fields set by AgentTools.create_project). -/
structure ProjRec where
  id : Nat
  name : Option String
  key : String
  description : Option String
  status : String
  category : String
deriving DecidableEq, Repr

/-- A persisted Task row (fields set by AgentTools.create_task). -/
structure TaskRec where
  id : Nat
  content : Option String
  description : Option String
  status : String
  priority : String
  assignee : Option String
  estimatedHours : Option Nat
  loggedHours : Nat
  tags : List String
  projectId : Nat
  isBacklog : Bool
  createdBy : String
deriving DecidableEq, Repr

/-- A persisted Sprint row (fields set by AgentTools.create_sprint). -/
structure SprintRec where
  id : Nat
  name : Option String
  goal : Option String
  status : String
  projectId : Nat
  velocity : Nat
deriving DecidableEq, Repr

/-- The persistent store plus the request-scoped commit counter.  `now` is
`int(time.time())` at project creation; `nextId` models database id
assignment. -/
structure Store where
  projects : List ProjRec
  tasks : List TaskRec
  sprints : List SprintRec
  nextId : Nat
  now : Nat
  opIndex : Nat
deriving DecidableEq, Repr

/-- Python `a or b` on two optional strings: None and the empty string are
falsy. -/
def pyOrOpt (a b : Option String) : Option String :=
  match a with
  | some s => if s = "" then b else some s
  | none => b

/-- The project_data dict consumed by create_project.  `none` is an absent
key; every caller in the repository passes the name key (possibly holding
None), and never passes a key entry. -/
structure ProjectInput where
  key : Option String
  name : Option String
  description : Option String
  category : Option String
deriving DecidableEq, Repr

/-- The task_data dict consumed by create_task.  The parent_id entry passed
for sub-tasks is not read by create_task and is not modeled. -/
structure TaskInput where
  name : Option String
  content : Option String
  description : Option String
  priority : Option String
  assignee : Option String
  estimatedHours : Option Nat
  tags : Option (List String)
deriving DecidableEq, Repr

/-- The sprint_data dict consumed by create_sprint. -/
structure SprintInput where
  name : Option String
  description : Option String
  goal : Option String
deriving DecidableEq, Repr

/-- The base of the project key (tools.py line 19):
`project_data.get("key", project_data.get("name", "PROJ")[:4].upper())` for a
present non-None name. -/
def projBaseKey (inp : ProjectInput) (n : String) : String :=
  match inp.key with
  | some k => k
  | none => String.mk (upperChars (n.data.take 4))

/-- The Project row committed by create_project (tools.py lines 22-34):
unique key = base key plus `int(time.time()) % 10000`. -/
def projRecOf (inp : ProjectInput) (st : Store) (n : String) : ProjRec :=
  { id := st.nextId, name := some n,
    key := projBaseKey inp n ++ Nat.repr (st.now % 10000),
    description := inp.description, status := "active",
    category := inp.category.getD "ai-generated" }

/-- The store after the create_project commit. -/
def stAfterProject (inp : ProjectInput) (st : Store) (n : String) : Store :=
  { st with
    projects := st.projects ++ [projRecOf inp st n]
    nextId := st.nextId + 1
    opIndex := st.opIndex + 1 }

/-- AgentTools.create_project (tools.py lines 14-48).  Python evaluates the
default argument of `project_data.get("key", ...)` eagerly, so a None name
raises TypeError (error result) even when a key is provided. -/
def create_projectF (fail : Nat → Bool) (inp : ProjectInput) (st : Store) :
    Except Store (Store × ProjRec) :=
  match inp.name with
  | none => .error st
  | some n =>
    if fail st.opIndex then .error { st with opIndex := st.opIndex + 1 }
    else .ok (stAfterProject inp st n, projRecOf inp st n)

/-- The Task row committed by create_task (tools.py lines 54-67): content is
`task_data.get("name") or task_data.get("content")`, status To Do, priority
defaulted to medium, zero logged hours, created by the agent. -/
def taskRecOf (inp : TaskInput) (pid : Nat) (st : Store) : TaskRec :=
  { id := st.nextId, content := pyOrOpt inp.name inp.content,
    description := inp.description, status := "To Do",
    priority := inp.priority.getD "medium", assignee := inp.assignee,
    estimatedHours := inp.estimatedHours, loggedHours := 0,
    tags := inp.tags.getD [], projectId := pid,
    isBacklog := true, createdBy := "pm-ai-agent" }

/-- The store after the create_task commit. -/
def stAfterTask (inp : TaskInput) (pid : Nat) (st : Store) : Store :=
  { st with
    tasks := st.tasks ++ [taskRecOf inp pid st]
    nextId := st.nextId + 1
    opIndex := st.opIndex + 1 }

/-- AgentTools.create_task (tools.py lines 50-82). -/
def create_taskF (fail : Nat → Bool) (inp : TaskInput) (projectId : Nat) (st : Store) :
    Except Store (Store × TaskRec) :=
  if fail st.opIndex then .error { st with opIndex := st.opIndex + 1 }
  else .ok (stAfterTask inp projectId st, taskRecOf inp projectId st)

/-- The Sprint row committed by create_sprint (tools.py lines 88-95): the
goal falls back from description to goal with Python or-semantics. -/
def sprintRecOf (inp : SprintInput) (pid : Nat) (st : Store) : SprintRec :=
  { id := st.nextId, name := inp.name, goal := pyOrOpt inp.description inp.goal,
    status := "planned", projectId := pid, velocity := 0 }

/-- The store after the create_sprint commit. -/
def stAfterSprint (inp : SprintInput) (pid : Nat) (st : Store) : Store :=
  { st with
    sprints := st.sprints ++ [sprintRecOf inp pid st]
    nextId := st.nextId + 1
    opIndex := st.opIndex + 1 }

/-- AgentTools.create_sprint (tools.py lines 84-108). -/
def create_sprintF (fail : Nat → Bool) (inp : SprintInput) (projectId : Nat) (st : Store) :
    Except Store (Store × SprintRec) :=
  if fail st.opIndex then .error { st with opIndex := st.opIndex + 1 }
  else .ok (stAfterSprint inp projectId st, sprintRecOf inp projectId st)

/-- The no-fault oracle: every store commit succeeds. -/
def noFail : Nat → Bool := fun _ => false

/-! ## Plan Executor (agent_service.py, execute_plan, lines 297-348) -/

/-- A milestone entry of a Generated Plan (advisory, all fields optional). -/
structure Milestone where
  name : Option String
  description : Option String
deriving DecidableEq, Repr

/-- A task entry of a Generated Plan (advisory, all fields optional). -/
structure PlanTask where
  name : Option String
  description : Option String
  priority : Option String
  estimatedHours : Option Nat
deriving DecidableEq, Repr

/-- A Generated Plan as consumed by execute_plan.  Absent list fields behave
exactly like empty lists in the source (falsy guard or empty iteration), so
lists stand for both. -/
structure GenPlan where
  projectName : Option String
  overview : Option String
  milestones : List Milestone
  tasks : List PlanTask
  epics : List PlanTask
deriving DecidableEq, Repr

/-- tasks_to_create (agent_service.py lines 325-328): the plan tasks, falling
back to the epics list when no tasks were produced and epics is truthy. -/
def effectiveTasks (plan : GenPlan) : List PlanTask :=
  if plan.tasks.isEmpty && !plan.epics.isEmpty then plan.epics else plan.tasks

/-- The sprint_data dict built from a milestone (agent_service.py lines
317-321): the description doubles as the goal. -/
def milestoneSprintInput (m : Milestone) : SprintInput :=
  { name := m.name, description := m.description, goal := m.description }

/-- The sprint-creation loop of execute_plan (lines 315-322): one sprint per
milestone, description reused as the goal. -/
def createSprintsF (fail : Nat → Bool) (pid : Nat) :
    List Milestone → Store → Except Store (Store × List SprintRec)
  | [], st => .ok (st, [])
  | m :: ms, st =>
    match create_sprintF fail (milestoneSprintInput m) pid st with
    | .error e => .error e
    | .ok (st1, s) =>
      match createSprintsF fail pid ms st1 with
      | .error e => .error e
      | .ok (st2, rest) => .ok (st2, s :: rest)

/-- The task dict built by the task-creation loop of execute_plan (lines
330-337): priority defaulted to medium, tagged ai-generated. -/
def planTaskInput (d : PlanTask) : TaskInput :=
  { name := d.name, content := none, description := d.description,
    priority := some (d.priority.getD "medium"), assignee := none,
    estimatedHours := d.estimatedHours, tags := some ["ai-generated"] }

/-- The task-creation loop of execute_plan (lines 330-338). -/
def createTasksF (fail : Nat → Bool) (pid : Nat) :
    List PlanTask → Store → Except Store (Store × List TaskRec)
  | [], st => .ok (st, [])
  | d :: ds, st =>
    match create_taskF fail (planTaskInput d) pid st with
    | .error e => .error e
    | .ok (st1, t) =>
      match createTasksF fail pid ds st1 with
      | .error e => .error e
      | .ok (st2, rest) => .ok (st2, t :: rest)

/-- The result dict of execute_plan (lines 340-348). -/
structure ExecResult where
  success : Bool
  project : ProjRec
  tasksCreated : Nat
  sprintsCreated : Nat
  projectId : Nat
  tasks : List TaskRec
  sprints : List SprintRec
deriving DecidableEq, Repr

/-- AgentService.execute_plan (agent_service.py lines 297-348): create the
project, then one sprint per milestone, then the tasks (with epics fallback),
each through its own independently committed tool call. -/
def execute_planF (fail : Nat → Bool) (plan : GenPlan) (st : Store) :
    Except Store (Store × ExecResult) :=
  match create_projectF fail
      { key := none, name := plan.projectName, description := plan.overview,
        category := some "ai-generated" } st with
  | .error e => .error e
  | .ok (st1, proj) =>
    match createSprintsF fail proj.id plan.milestones st1 with
    | .error e => .error e
    | .ok (st2, sprints) =>
      match createTasksF fail proj.id (effectiveTasks plan) st2 with
      | .error e => .error e
      | .ok (st3, tasks) =>
        .ok (st3, { success := true, project := proj, tasksCreated := tasks.length,
                    sprintsCreated := sprints.length, projectId := proj.id,
                    tasks := tasks, sprints := sprints })

/-- execute_plan as invoked when every store commit succeeds. -/
def execute_plan (plan : GenPlan) (st : Store) : Except Store (Store × ExecResult) :=
  execute_planF noFail plan st

/-- The committed store reached by a tool call or an execution, successful
or not: errors carry the store as already committed. -/
def postStore {α : Type} : Except Store (Store × α) → Store
  | .error s => s
  | .ok (s, _) => s

/-- One store extends another when every entity list of the first is a prefix
of the corresponding list of the second: nothing committed is ever removed. -/
def StoreExtends (st st2 : Store) : Prop :=
  st.projects <+: st2.projects ∧ st.sprints <+: st2.sprints ∧ st.tasks <+: st2.tasks

/-- An empty store fixture for concrete executions. -/
def demoStore : Store :=
  { projects := [], tasks := [], sprints := [], nextId := 1,
    now := 1755555555, opIndex := 0 }

/-- A concrete plan with two milestones and three tasks. -/
def c5plan : GenPlan :=
  { projectName := some "Food Delivery App", overview := some "A delivery app",
    milestones := [{ name := some "M1", description := some "phase one" },
                   { name := some "M2", description := none }],
    tasks := [{ name := some "Design schema", description := some "tables",
                priority := some "high", estimatedHours := some 8 },
              { name := some "Build API", description := none,
                priority := none, estimatedHours := none },
              { name := some "Ship", description := none,
                priority := none, estimatedHours := none }],
    epics := [] }

/-- A plan with one milestone and two tasks but no project name: execute_plan
passes name None to create_project, whose eagerly evaluated
`project_data.get("name", "PROJ")[:4].upper()` raises TypeError before any
commit. -/
def c5noNamePlan : GenPlan :=
  { projectName := none, overview := some "An unnamed plan",
    milestones := [{ name := some "M1", description := none }],
    tasks := [{ name := some "T1", description := none,
                priority := none, estimatedHours := none },
              { name := some "T2", description := none,
                priority := none, estimatedHours := none }],
    epics := [] }

/-- A fault oracle failing the fourth store commit of the request (the
project is commit 0, the three tasks are commits 1 to 3). -/
def c9fail : Nat → Bool := fun n => n == 3

/-- A concrete plan with no milestones and three tasks. -/
def c9plan : GenPlan :=
  { projectName := some "Demo", overview := none, milestones := [],
    tasks := [{ name := some "t1", description := none, priority := none,
                estimatedHours := none },
              { name := some "t2", description := none, priority := none,
                estimatedHours := none },
              { name := some "t3", description := none, priority := none,
                estimatedHours := none }],
    epics := [] }

/-! ## Task-Modification Resolver (agent_service.py, modify_task, lines
350-421) -/

/-- The interpreted Modification Intent recovered from the backend response
(action, target_task_name, updates). -/
structure ModIntent where
  action : Option String
  targetTaskName : Option String
  updates : List (String × String)
deriving DecidableEq, Repr

/-- The result dict of modify_task: success flag, action when one ran, the
rendered message, and the affected task when present. -/
structure ModResult where
  success : Bool
  action : Option String
  message : String
  task : Option TaskRec
deriving DecidableEq, Repr

/-- An optional string rendered inside a Python f-string: None prints as
None. -/
def pyShowOpt (o : Option String) : String :=
  match o with
  | some s => s
  | none => "None"

/-- The match predicate of the resolver loop (agent_service.py lines
385-391): the lowered target is contained in the lowered title or in the
lowered description, absent fields reading as empty strings. -/
def taskMatchesTarget (target : List Char) (t : TaskRec) : Bool :=
  isSubstring target (lowerChars (t.content.getD "").data) ||
  isSubstring target (lowerChars (t.description.getD "").data)

/-- The resolver loop: the first task matching the target in store iteration
order, none otherwise (the for-break at lines 385-391). -/
def findTargetTask (target : List Char) : List TaskRec → Option TaskRec
  | [] => none
  | t :: ts => if taskMatchesTarget target t then some t else findTargetTask target ts

/-- One setattr of AgentTools.update_task (tools.py lines 135-137) on the
string-valued task columns; keys naming no column are skipped by the hasattr
guard. -/
def applyUpdate (t : TaskRec) (kv : String × String) : TaskRec :=
  match kv.1 with
  | "status" => { t with status := kv.2 }
  | "priority" => { t with priority := kv.2 }
  | "assignee" => { t with assignee := some kv.2 }
  | "content" => { t with content := some kv.2 }
  | "description" => { t with description := some kv.2 }
  | "created_by" => { t with createdBy := kv.2 }
  | _ => t

/-- The merging loop of AgentTools.update_task. -/
def applyUpdates (t : TaskRec) (ups : List (String × String)) : TaskRec :=
  ups.foldl applyUpdate t

/-- AgentService.modify_task after the interpretation call (agent_service.py
lines 378-421): resolve the target by first case-insensitive substring match
on title or description; action update merges and persists, delete removes,
anything else reports an unknown action, a missing target reports not-found
naming the lowered search string; an interpretation failure is caught by the
enclosing except and also becomes a result value.  Returns the result dict
and the project task list as left in the store. -/
def modify_taskCore (interp : Except String ModIntent) (tasks : List TaskRec) :
    ModResult × List TaskRec :=
  match interp with
  | .error e =>
      ({ success := false, action := none,
         message := "Error modifying task: " ++ e, task := none }, tasks)
  | .ok plan =>
    let target := lowerChars (plan.targetTaskName.getD "").data
    match findTargetTask target tasks with
    | none =>
        ({ success := false, action := none,
           message := "Could not find task matching \x27" ++ String.mk target ++ "\x27",
           task := none }, tasks)
    | some t =>
      if plan.action = some "update" then
        ({ success := true, action := some "update",
           message := "Updated task \x27"
             ++ pyShowOpt (applyUpdates t plan.updates).content ++ "\x27",
           task := some (applyUpdates t plan.updates) },
         tasks.map (fun u => if u.id = t.id then applyUpdates t plan.updates else u))
      else if plan.action = some "delete" then
        ({ success := true, action := some "delete",
           message := "Deleted task \x27" ++ pyShowOpt t.content ++ "\x27",
           task := some t },
         tasks.filter (fun u => u.id ≠ t.id))
      else
        ({ success := false, action := none, message := "Unknown action", task := none },
         tasks)

/-- A stored task titled Implement login. -/
def demoTask1 : TaskRec :=
  { id := 11, content := some "Implement login", description := none,
    status := "To Do", priority := "medium", assignee := none,
    estimatedHours := none, loggedHours := 0, tags := [], projectId := 1,
    isBacklog := true, createdBy := "pm-ai-agent" }

/-- A stored task titled Fix logout bug. -/
def demoTask2 : TaskRec :=
  { id := 12, content := some "Fix logout bug", description := none,
    status := "To Do", priority := "medium", assignee := none,
    estimatedHours := none, loggedHours := 0, tags := [], projectId := 1,
    isBacklog := true, createdBy := "pm-ai-agent" }

/-- An intent whose target matches no stored task. -/
def demoIntentMissing : ModIntent :=
  { action := some "update", targetTaskName := some "zzz", updates := [] }

/-! ## Natural-language summarizer (agent_service.py,
generate_natural_language_response, lines 423-450) -/

/-- The fixed degradation message of the summarizer. -/
def apologyMessage : String :=
  "I completed the action, but I\x27m having trouble summarizing it right now."

/-- Python `str.strip()` on a String. -/
def pyStripStr (s : String) : String := String.mk (pyStrip s.data)

/-- AgentService.generate_natural_language_response: the prompt rendering is
total (the template has exactly the three placeholders and results are
acyclic dicts serialized with default=str); the backend call may fail; on
success the stripped content is returned, on any failure the diagnostic file
write is attempted (its own failure swallowed by the inner bare except,
hence the unused flag) and the fixed apology is returned. -/
def generate_natural_language_responseM (backend : Except String String)
    (logWriteOk : Bool) : String :=
  match backend with
  | .ok content => pyStripStr content
  | .error _ =>
      let _ := logWriteOk
      apologyMessage

/-! ## Bulk task-creation branch (agent.py lines 129-180)

The response-building statements at lines 166-180 are indented inside the
for-loop body (the blank line 165 does not close the block), so the branch
returns at the end of the first iteration. -/

/-- A TaskDraft of a Task-List Result as consumed by the route. -/
structure TLDraft where
  name : Option String
  description : Option String
  priority : Option String
  estimatedHours : Option Nat
  assignee : Option String
  assignmentReasoning : Option String
  subTasks : List String
deriving DecidableEq, Repr

/-- A parsed task-list value: optional clarification question plus drafts. -/
structure TaskListValue where
  question : Option String
  tasks : List TLDraft
deriving DecidableEq, Repr

/-- Python truthiness of an optional string. -/
def optTruthy (o : Option String) : Bool :=
  match o with
  | some s => s != ""
  | none => false

/-- The AI reasoning marker prefixed to the appended reasoning (agent.py
line 143; the decorative glyphs of the source literal are elided). -/
def reasoningMarker : String := "\n\n**AI Reasoning:** "

/-- The description assembled for a draft (agent.py lines 140-143): the
reasoning is appended only when truthy. -/
def bulkDescription (d : TLDraft) : String :=
  d.description.getD "" ++
    (match d.assignmentReasoning with
     | some r => if r = "" then "" else reasoningMarker ++ r
     | none => "")

/-- The task dict of the main create_task call (agent.py lines 145-152). -/
def bulkMainTaskInput (d : TLDraft) : TaskInput :=
  { name := d.name, content := none, description := some (bulkDescription d),
    priority := some (d.priority.getD "medium"), assignee := d.assignee,
    estimatedHours := d.estimatedHours, tags := some ["ai-generated"] }

/-- The task dict of a sub-task create_task call (agent.py lines 157-162);
the parent_id entry is not read by create_task. -/
def bulkSubTaskInput (d : TLDraft) (subName : String) : TaskInput :=
  { name := some subName, content := none, description := none,
    priority := some (d.priority.getD "medium"), assignee := none,
    estimatedHours := none, tags := some ["ai-generated", "subtask"] }

/-- The sub-task loop (agent.py lines 155-162). -/
def createSubtasksF (fail : Nat → Bool) (pid : Nat) (d : TLDraft) :
    List String → Store → Except Store Store
  | [], st => .ok st
  | s :: ss, st =>
    match create_taskF fail (bulkSubTaskInput d s) pid st with
    | .error e => .error e
    | .ok (st1, _) => createSubtasksF fail pid d ss st1

/-- The branch outcome: a clarification response, a create_tasks response
(the created_tasks list and the reported tasks_created count), or no
response at all (the handler falls off the empty loop and implicitly
returns None). -/
inductive BulkOutcome
  | clarification (q : String)
  | response (tasks : List TaskRec) (tasksCreated : Nat)
  | noResponse
deriving DecidableEq, Repr

/-- The bulk task-creation branch after generate_task_list returned
(agent.py lines 129-180), for a present project id: a truthy question short
circuits; otherwise the loop body creates the first draft with its
sub-tasks, then builds the result and returns inside the loop, with
created_tasks holding only that first task; with no drafts the loop body
never runs and no response is produced. -/
def bulkCreateBranch (fail : Nat → Bool) (tl : TaskListValue) (pid : Nat) (st : Store) :
    Except Store (Store × BulkOutcome) :=
  if optTruthy tl.question then
    .ok (st, .clarification (tl.question.getD ""))
  else
    match tl.tasks with
    | [] => .ok (st, .noResponse)
    | d :: _ =>
      match create_taskF fail (bulkMainTaskInput d) pid st with
      | .error e => .error e
      | .ok (st1, task) =>
        match createSubtasksF fail pid d d.subTasks st1 with
        | .error e => .error e
        | .ok st2 => .ok (st2, .response [task] 1)

/-- A task list with two drafts, the first carrying two sub-tasks. -/
def c10taskList : TaskListValue :=
  { question := none,
    tasks := [{ name := some "First", description := some "one",
                priority := some "high", estimatedHours := none,
                assignee := none, assignmentReasoning := none,
                subTasks := ["sub a", "sub b"] },
              { name := some "Second", description := none,
                priority := none, estimatedHours := none,
                assignee := none, assignmentReasoning := none,
                subTasks := [] }] }


/-! ## Binary64 arithmetic (model of the CPython float semantics used by the
Health Analyzer)

CPython evaluates `int((completed / total) * 100)` with one correctly
rounded binary64 division, one correctly rounded binary64 multiplication,
and truncation toward zero.  The functions below realize round-to-nearest,
ties-to-even at 53 significant bits on exact unnormalized fractions of
naturals.  The binade search covers magnitudes from 2 to the -64 up to 2 to
the 64; completion ratios lie in (0, 1] and their hundredfolds in (0, 100],
and for ratios below the search floor both the model and the float pipeline
truncate to zero, so the model agrees with CPython on the whole reachable
domain (overflow and subnormals are unreachable). -/

/-- Whether 2 to the e is at most p/q (q positive), by integer scaling. -/
def twoPowLe (e : Int) (p q : Nat) : Bool :=
  if 0 ≤ e then q * 2 ^ e.toNat ≤ p else q ≤ p * 2 ^ (-e).toNat

/-- The binade exponent of p/q: the e with 2^e ≤ p/q < 2^(e+1), searched
over -64..64 (0 when out of range, see the section comment). -/
def findExpF (p q : Nat) : Int :=
  match (List.range 129).find? (fun i =>
      twoPowLe ((i : Int) - 64) p q && !(twoPowLe ((i : Int) - 63) p q)) with
  | some i => (i : Int) - 64
  | none => 0

/-- Round the positive fraction p/q to 53 significant bits, nearest, ties
to even, returned as an unnormalized dyadic fraction. -/
def roundPosFrac (p q : Nat) : Nat × Nat :=
  let e := findExpF p q
  let np := if 0 ≤ 52 - e then p * 2 ^ (52 - e).toNat else p
  let nq := if 0 ≤ 52 - e then q else q * 2 ^ (e - 52).toNat
  let n := np / nq
  let r := np % nq
  let m := if 2 * r < nq then n
           else if nq < 2 * r then n + 1
           else if n % 2 = 0 then n else n + 1
  if 0 ≤ e - 52 then (m * 2 ^ (e - 52).toNat, 1) else (m, 2 ^ (52 - e).toNat)

/-- Python `int((completed / total) * 100)` in binary64: correctly rounded
division, correctly rounded multiplication by the exact float 100, then
truncation (floor, as all values are nonnegative). -/
def floatRatePct (completed total : Nat) : Nat :=
  if completed = 0 then 0
  else
    let v1 := roundPosFrac completed total
    let v2 := roundPosFrac (v1.1 * 100) v1.2
    v2.1 / v2.2

/-! ## Health Analyzer (tools.py, get_project_health, lines 156-185) -/

/-- The fields of a stored task read by the Health Analyzer. -/
structure HTask where
  status : String
  assignee : Option String
deriving DecidableEq, Repr

/-- One dict update of the assignee_counts loop: Python dicts update keys in
place preserving insertion order and append new keys. -/
def bumpCount (counts : List (String × Nat)) (a : String) : List (String × Nat) :=
  match counts with
  | [] => [(a, 1)]
  | (k, v) :: rest => if k = a then (k, v + 1) :: rest else (k, v) :: bumpCount rest a

/-- The assignee_counts loop (tools.py lines 172-175): count each task with
a truthy assignee and a status other than Done. -/
def assigneeCountsAux : List HTask → List (String × Nat) → List (String × Nat)
  | [], cs => cs
  | t :: ts, cs =>
    assigneeCountsAux ts
      (match t.assignee with
       | some a => if a ≠ "" ∧ t.status ≠ "Done" then bumpCount cs a else cs
       | none => cs)

/-- The finished assignee_counts dict. -/
def assigneeCounts (tasks : List HTask) : List (String × Nat) :=
  assigneeCountsAux tasks []

/-- First-match association lookup, zero for a missing key (Python
`counts.get(a, 0)`). -/
def lookupCount (cs : List (String × Nat)) (a : String) : Nat :=
  match cs with
  | [] => 0
  | (k, v) :: rest => if k = a then v else lookupCount rest a

/-- How many tasks of the set are assigned to a and not Done. -/
def openCount (tasks : List HTask) (a : String) : Nat :=
  (tasks.filter (fun t => t.assignee = some a ∧ t.status ≠ "Done")).length

/-- The contribution of the loop to key a: zero for the falsy empty name. -/
def openContrib (tasks : List HTask) (a : String) : Nat :=
  if a = "" then 0 else openCount tasks a

/-- The Health Snapshot: the distinguished empty dict or the stats dict. -/
inductive HealthResult
  | empty
  | stats (totalTasks : Nat) (completionRate : Int) (inProgress : Nat)
      (overloadedMembers : List String) (burnoutRisk : String)
deriving DecidableEq, Repr

/-- AgentTools.get_project_health (tools.py lines 156-185) as a function of
the project task set: the empty set short-circuits; otherwise the completion
rate is int((completed/total)*100) in binary64, the overloaded members are
the assignees counted more than five times, and burnout is High exactly when
that list is truthy. -/
def get_project_health (tasks : List HTask) : HealthResult :=
  if tasks.length = 0 then .empty
  else
    let completed := (tasks.filter (fun t => t.status = "Done")).length
    let inProgress := (tasks.filter (fun t => t.status = "In Progress")).length
    let overloaded := ((assigneeCounts tasks).filter (fun kv => 5 < kv.2)).map (fun kv => kv.1)
    .stats tasks.length
      ((floatRatePct completed tasks.length : Nat) : Int)
      inProgress overloaded (if overloaded ≠ [] then "High" else "Low")

/-- One hundred stored tasks, twenty-nine of them Done. -/
def c4tasks : List HTask :=
  List.replicate 29 { status := "Done", assignee := none } ++
  List.replicate 71 { status := "To Do", assignee := none }

/-- Ten tasks, four Done; one assignee with six open tasks, another with
exactly five. -/
def c4tasksB : List HTask :=
  List.replicate 4 { status := "Done", assignee := none } ++
  List.replicate 6 { status := "To Do", assignee := some "alice" }

/-- Eleven tasks: six open for alice, five open for bob. -/
def c4tasksC : List HTask :=
  List.replicate 6 { status := "To Do", assignee := some "alice" } ++
  List.replicate 5 { status := "In Progress", assignee := some "bob" }

/-! ## Theorems -/

/-- Claim C1, counterexample: the prompt "summary" matches none of the nine
rule groups listed by the claim, so the claim routes it to default plan
generation; the code instead hits the legacy health-summary branch at
agent.py line 359. -/
theorem c1_counterexample :
    classify "summary" = Capability.healthSummary ∧
    classifyClaimed "summary" = Capability.generatePlan ∧
    classify "summary" ≠ classifyClaimed "summary" := by
  refine ⟨by decide, by decide, by decide⟩

/-- Claim C1 (amended): classification is ordered keyword substring testing
against the lower-cased prompt and the first matching group in the fixed
priority order wins, where the priority order is the claimed one extended by a
legacy health-summary group (keywords "health", "status", "summary", "how is",
"progress") tested after prioritization and before the default; in particular
a prompt containing both "create project" and "health" resolves to
project-creation. -/
theorem c1_router_priority_dispatch :
    (∀ p : String,
      classify p = dispatchFirstMatch Capability.generatePlan routerGroups (lowerChars p.data)) ∧
    classify "Create project to track team health" = Capability.createProject ∧
    classify "how is the project health" = Capability.projectHealth := by
  refine ⟨fun p => rfl, by decide, by decide⟩

/-- Claim C2, counterexample: the claim asserts that every extraction path
slices to the brace span after fence stripping, but the breakdown_task path
(agent_service.py lines 96-103, cited by the claim) parses the fence-stripped
text without brace slicing: on unfenced text with prose around the braces the
two transformations disagree. -/
theorem c2_counterexample :
    breakdownExtractContent "note \x7b\"a\": 1\x7d end".data ≠
      braceSlice (stripCodeFences "note \x7b\"a\": 1\x7d end".data) ∧
    breakdownExtractContent "note \x7b\"a\": 1\x7d end".data = "note \x7b\"a\": 1\x7d end".data ∧
    braceSlice (stripCodeFences "note \x7b\"a\": 1\x7d end".data) = "\x7b\"a\": 1\x7d".data := by
  refine ⟨by decide, by decide, by decide⟩

/-- Claim C2 (amended): code-fence stripping (first json-labeled block, else
first generic block, else the whole text) runs first on every path, but the
brace-slicing step follows it only in the project-plan generation path; the
breakdown path parses the fence-stripped text directly.  The concrete
conjuncts exercise recovery from a fenced block with surrounding prose, from
unfenced prose around braces, and show the preserved order matters: slicing
before stripping would yield a different (wrong) result. -/
theorem c2_extractor_order :
    (∀ c : List Char, planExtractContent c = braceSlice (stripCodeFences c)) ∧
    (∀ c : List Char, breakdownExtractContent c = stripCodeFences c) ∧
    planExtractContent "Here is the plan: ```json \x7b\"a\": 1\x7d ``` thanks".data
      = "\x7b\"a\": 1\x7d".data ∧
    planExtractContent "prose \x7b\"a\": 1\x7d more prose".data = "\x7b\"a\": 1\x7d".data ∧
    breakdownExtractContent "```json \x7b\"a\": 1\x7d ```".data = "\x7b\"a\": 1\x7d".data ∧
    braceSlice (stripCodeFences "```json\n\x7b\"a\": 1\x7d\n``` extra \x7d".data) ≠
      stripCodeFences (braceSlice "```json\n\x7b\"a\": 1\x7d\n``` extra \x7d".data) := by
  refine ⟨fun c => rfl, fun c => rfl, by decide, by decide, by decide, by decide⟩

/-- Sanity: the parser accepts a small object and rejects a bare word. -/
theorem pyJsonLoads_object_and_reject :
    pyJsonLoads "\x7b\"tasks\": []\x7d".data
      = some (JVal.jobj [("tasks".data, JVal.jarr [])]) ∧
    pyJsonLoads "hello".data = none := by
  refine ⟨rfl, rfl⟩

/-- Claim C3, counterexample: both the 500-character test and the returned
question text use the fence-stripped content, not the original response.  A
fenced 17-character response yields the stripped word, not the original text;
a 514-character response whose fenced content is short yields a clarification
question even though the claim requires a parse failure at 500 characters or
more. -/
theorem c3_counterexample :
    (pyJsonLoads (stripCodeFences "```json\nhello\n```".data) = none ∧
      "```json\nhello\n```".data.length < 500 ∧
      generate_task_list_post "```json\nhello\n```".data
        = TaskListOutcome.question "hello".data ∧
      generate_task_list_post "```json\nhello\n```".data
        ≠ TaskListOutcome.question "```json\nhello\n```".data) ∧
    (pyJsonLoads (stripCodeFences (List.replicate 500 'x' ++ "```json hi ```".data)) = none ∧
      500 ≤ (List.replicate 500 'x' ++ "```json hi ```".data).length ∧
      generate_task_list_post (List.replicate 500 'x' ++ "```json hi ```".data)
        = TaskListOutcome.question "hi".data ∧
      generate_task_list_post (List.replicate 500 'x' ++ "```json hi ```".data)
        ≠ TaskListOutcome.parseError) := by
  refine ⟨⟨rfl, by decide, rfl, ?_⟩, ⟨rfl, by decide, rfl, ?_⟩⟩
  · intro h
    rw [show generate_task_list_post "```json\nhello\n```".data
          = TaskListOutcome.question "hello".data from rfl] at h
    injection h with h2
    exact absurd h2 (by decide)
  · intro h
    rw [show generate_task_list_post (List.replicate 500 'x' ++ "```json hi ```".data)
          = TaskListOutcome.question "hi".data from rfl] at h
    exact TaskListOutcome.noConfusion h

/-- Claim C3 (amended): in the task-list generation path, if the fence-stripped
response content fails to parse as JSON, then the path yields the clarification
result holding that stripped content when it is under 500 characters, and a
parse failure when it is 500 characters or longer; both the threshold test and
the returned text use the stripped content, not the original response text. -/
theorem c3_short_response_clarification :
    ∀ raw : List Char, pyJsonLoads (stripCodeFences raw) = none →
      ((stripCodeFences raw).length < 500 →
        generate_task_list_post raw = TaskListOutcome.question (stripCodeFences raw)) ∧
      (500 ≤ (stripCodeFences raw).length →
        generate_task_list_post raw = TaskListOutcome.parseError) := by
  intro raw h
  unfold generate_task_list_post
  rw [h]
  constructor
  · intro hlt
    simp [hlt]
  · intro hge
    have hn : ¬ (stripCodeFences raw).length < 500 := by omega
    simp [hn]

/-- UInt32 order agrees with the order of the underlying naturals. -/
theorem uint32_le_iff {a b : UInt32} : a ≤ b ↔ a.toNat ≤ b.toNat := Iff.rfl

/-- Packing a valid code point and unpacking it is the identity. -/
theorem char_ofNat_toNat_of_valid {n : Nat} (h : Nat.isValidChar n) :
    (Char.ofNat n).toNat = n := by
  rw [Char.ofNat, dif_pos h]
  simp [Char.ofNatAux, Char.toNat, UInt32.toNat]

/-- A character is ASCII lowercase iff its code point lies in 97..122. -/
theorem char_isLower_iff (c : Char) : c.isLower = true ↔ 97 ≤ c.toNat ∧ c.toNat ≤ 122 := by
  simp only [Char.isLower, Bool.and_eq_true, decide_eq_true_eq, ge_iff_le]
  rw [uint32_le_iff, uint32_le_iff]
  have h97 : (97 : UInt32).toNat = 97 := rfl
  have h122 : (122 : UInt32).toNat = 122 := rfl
  rw [h97, h122]
  exact Iff.rfl

/-- Upper-casing a character never yields an ASCII lowercase character. -/
theorem char_toUpper_isLower (c : Char) : (Char.toUpper c).isLower = false := by
  unfold Char.toUpper
  by_cases h : c.toNat ≥ 97 ∧ c.toNat ≤ 122
  · rw [if_pos h]
    have hv : Nat.isValidChar (c.toNat - 32) := Or.inl (by omega)
    have ht : (Char.ofNat (c.toNat - 32)).toNat = c.toNat - 32 := char_ofNat_toNat_of_valid hv
    rw [← Bool.not_eq_true]
    intro hc
    rw [char_isLower_iff, ht] at hc
    omega
  · rw [if_neg h]
    rw [← Bool.not_eq_true]
    intro hc
    rw [char_isLower_iff] at hc
    omega

/-- With no store faults and a present name, create_project commits exactly
the modeled project row. -/
theorem create_projectF_noFail_eq (inp : ProjectInput) (st : Store) (n : String)
    (h : inp.name = some n) :
    create_projectF noFail inp st = .ok (stAfterProject inp st n, projRecOf inp st n) := by
  unfold create_projectF
  rw [h]
  exact rfl

/-- With no store faults, the sprint loop commits one sprint per milestone
and touches no other entity list. -/
theorem createSprintsF_noFail_spec (pid : Nat) :
    ∀ (ms : List Milestone) (st : Store),
      ∃ st2 recs, createSprintsF noFail pid ms st = .ok (st2, recs) ∧
        recs.length = ms.length ∧
        st2.sprints = st.sprints ++ recs ∧
        st2.projects = st.projects ∧
        st2.tasks = st.tasks := by
  intro ms
  induction ms with
  | nil =>
    intro st
    exact ⟨st, [], rfl, rfl, by simp, rfl, rfl⟩
  | cons m ms ih =>
    intro st
    obtain ⟨st2, recs, heq, hlen, hspr, hproj, htasks⟩ :=
      ih (stAfterSprint (milestoneSprintInput m) pid st)
    refine ⟨st2, sprintRecOf (milestoneSprintInput m) pid st :: recs, ?_, ?_, ?_, ?_, ?_⟩
    · unfold createSprintsF
      rw [show create_sprintF noFail (milestoneSprintInput m) pid st
            = .ok (stAfterSprint (milestoneSprintInput m) pid st,
                   sprintRecOf (milestoneSprintInput m) pid st) from rfl]
      dsimp only
      rw [heq]
    · simp [hlen]
    · rw [hspr]
      simp [stAfterSprint]
    · exact hproj
    · exact htasks

/-- With no store faults, the task loop commits one task per draft, every
committed row referencing the given project, tagged ai-generated, with the
drafted priority defaulted to medium. -/
theorem createTasksF_noFail_spec (pid : Nat) :
    ∀ (drafts : List PlanTask) (st : Store),
      ∃ st2 recs, createTasksF noFail pid drafts st = .ok (st2, recs) ∧
        recs.length = drafts.length ∧
        st2.tasks = st.tasks ++ recs ∧
        st2.projects = st.projects ∧
        st2.sprints = st.sprints ∧
        (∀ t ∈ recs, t.projectId = pid ∧ t.tags = ["ai-generated"] ∧
          t.status = "To Do" ∧ t.createdBy = "pm-ai-agent") ∧
        (∀ i (h1 : i < recs.length) (h2 : i < drafts.length),
          (recs.get ⟨i, h1⟩).priority
            = ((drafts.get ⟨i, h2⟩).priority).getD "medium") := by
  intro drafts
  induction drafts with
  | nil =>
    intro st
    refine ⟨st, [], rfl, rfl, by simp, rfl, rfl, ?_, ?_⟩
    · intro t ht
      exact absurd ht (List.not_mem_nil t)
    · intro i h1 h2
      exact absurd h1 (by simp)
  | cons d ds ih =>
    intro st
    obtain ⟨st2, recs, heq, hlen, htasks, hproj, hspr, hmem, hpri⟩ :=
      ih (stAfterTask (planTaskInput d) pid st)
    refine ⟨st2, taskRecOf (planTaskInput d) pid st :: recs, ?_, ?_, ?_, ?_, ?_, ?_, ?_⟩
    · unfold createTasksF
      rw [show create_taskF noFail (planTaskInput d) pid st
            = .ok (stAfterTask (planTaskInput d) pid st,
                   taskRecOf (planTaskInput d) pid st) from rfl]
      dsimp only
      rw [heq]
    · simp [hlen]
    · rw [htasks]
      simp [stAfterTask]
    · exact hproj
    · exact hspr
    · intro t ht
      rcases List.mem_cons.mp ht with h | h
      · subst h
        exact ⟨rfl, rfl, rfl, rfl⟩
      · exact hmem t h
    · intro i h1 h2
      cases i with
      | zero => rfl
      | succ j =>
        exact hpri j (by simpa using h1) (by simpa using h2)

/-- Claim C5, counterexample: the claim quantifies over every Generated Plan,
but a plan without a project name makes create_project raise TypeError on
`None[:4]` before any commit: execution aborts with the store untouched, so
no project is created and no counts are reported, although the plan has one
milestone and two task entries. -/
theorem c5_counterexample :
    c5noNamePlan.projectName = none ∧
    c5noNamePlan.milestones.length = 1 ∧
    c5noNamePlan.tasks.length = 2 ∧
    execute_plan c5noNamePlan demoStore = .error demoStore ∧
    demoStore.projects.length = 0 ∧
    demoStore.tasks.length = 0 ∧
    demoStore.sprints.length = 0 := by
  refine ⟨rfl, rfl, rfl, rfl, rfl, rfl, rfl⟩

/-- Claim C5 (amended): for every Generated Plan that carries a project name
(a nameless plan raises TypeError in create_project and creates nothing), a
plan with M milestones and N task entries yields exactly one created
project, sprints_created = M, tasks_created = N (with the epics list as task
source when the plan has no tasks), every created task referencing the
created project id and tagged ai-generated, with priority defaulting to
medium when the draft omits it. -/
theorem c5_plan_executor_counts (plan : GenPlan) (st : Store) (nm : String)
    (h : plan.projectName = some nm) :
    ∃ st3 r, execute_plan plan st = .ok (st3, r) ∧
      r.sprintsCreated = plan.milestones.length ∧
      r.tasksCreated = (effectiveTasks plan).length ∧
      (plan.tasks ≠ [] → r.tasksCreated = plan.tasks.length) ∧
      (plan.tasks = [] → r.tasksCreated = plan.epics.length) ∧
      st3.projects.length = st.projects.length + 1 ∧
      r.tasks.length = r.tasksCreated ∧
      (∀ t ∈ r.tasks, t.projectId = r.project.id ∧ t.tags = ["ai-generated"]) ∧
      (∀ i (h1 : i < r.tasks.length) (h2 : i < (effectiveTasks plan).length),
        (r.tasks.get ⟨i, h1⟩).priority
          = (((effectiveTasks plan).get ⟨i, h2⟩).priority).getD "medium") := by
  have hp := create_projectF_noFail_eq
    { key := none, name := plan.projectName, description := plan.overview,
      category := some "ai-generated" } st nm h
  obtain ⟨st2, sprints, hs, hslen, hssp, hsproj, hstasks⟩ :=
    createSprintsF_noFail_spec
      (projRecOf { key := none, name := plan.projectName, description := plan.overview,
                   category := some "ai-generated" } st nm).id
      plan.milestones
      (stAfterProject { key := none, name := plan.projectName, description := plan.overview,
                        category := some "ai-generated" } st nm)
  obtain ⟨st3, tasks, ht, htlen, httasks, htproj, htspr, htmem, htpri⟩ :=
    createTasksF_noFail_spec
      (projRecOf { key := none, name := plan.projectName, description := plan.overview,
                   category := some "ai-generated" } st nm).id
      (effectiveTasks plan) st2
  refine ⟨st3,
    { success := true,
      project := projRecOf { key := none, name := plan.projectName,
                             description := plan.overview,
                             category := some "ai-generated" } st nm,
      tasksCreated := tasks.length, sprintsCreated := sprints.length,
      projectId := (projRecOf { key := none, name := plan.projectName,
                                description := plan.overview,
                                category := some "ai-generated" } st nm).id,
      tasks := tasks, sprints := sprints }, ?_, ?_, ?_, ?_, ?_, ?_, ?_, ?_, ?_⟩
  · unfold execute_plan execute_planF
    rw [hp]
    dsimp only
    rw [hs]
    dsimp only
    rw [ht]
  · exact hslen
  · exact htlen
  · intro hne
    cases htk : plan.tasks with
    | nil => exact absurd htk hne
    | cons a as =>
      rw [htlen]
      simp [effectiveTasks, htk]
  · intro he
    rw [htlen]
    by_cases hep : plan.epics = []
    · simp [effectiveTasks, he, hep]
    · simp [effectiveTasks, he, hep]
  · rw [htproj, hsproj]
    simp [stAfterProject]
  · exact rfl
  · intro t htm
    have hh := htmem t htm
    exact ⟨hh.1, hh.2.1⟩
  · exact htpri

/-- Witness for claim C5 at a concrete plan with two milestones and three
tasks. -/
theorem c5_plan_executor_counts_witness :
    c5plan.projectName = some "Food Delivery App" ∧
    (∃ st3 r, execute_plan c5plan demoStore = .ok (st3, r) ∧
      r.sprintsCreated = c5plan.milestones.length ∧
      r.tasksCreated = (effectiveTasks c5plan).length ∧
      (c5plan.tasks ≠ [] → r.tasksCreated = c5plan.tasks.length) ∧
      (c5plan.tasks = [] → r.tasksCreated = c5plan.epics.length) ∧
      st3.projects.length = demoStore.projects.length + 1 ∧
      r.tasks.length = r.tasksCreated ∧
      (∀ t ∈ r.tasks, t.projectId = r.project.id ∧ t.tags = ["ai-generated"]) ∧
      (∀ i (h1 : i < r.tasks.length) (h2 : i < (effectiveTasks c5plan).length),
        (r.tasks.get ⟨i, h1⟩).priority
          = (((effectiveTasks c5plan).get ⟨i, h2⟩).priority).getD "medium")) :=
  ⟨rfl, c5_plan_executor_counts c5plan demoStore "Food Delivery App" rfl⟩

/-- Claim C6: when the store commit succeeds and the name is present, the
created key is the base key plus the time-derived numeric disambiguator;
the base is the provided key when present, else the upper-cased first four
characters of the name (at most four characters, none lowercase). -/
theorem c6_project_key_derivation (fail : Nat → Bool) (inp : ProjectInput) (st : Store)
    (nm : String) (hname : inp.name = some nm) (hfail : fail st.opIndex = false) :
    ∃ st1 p, create_projectF fail inp st = .ok (st1, p) ∧
      p.key = projBaseKey inp nm ++ Nat.repr (st.now % 10000) ∧
      (∀ k, inp.key = some k → p.key = k ++ Nat.repr (st.now % 10000)) ∧
      (inp.key = none →
        p.key = String.mk (upperChars (nm.data.take 4)) ++ Nat.repr (st.now % 10000) ∧
        (nm.data.take 4).length ≤ 4 ∧
        ∀ c ∈ upperChars (nm.data.take 4), c.isLower = false) := by
  refine ⟨stAfterProject inp st nm, projRecOf inp st nm, ?_, rfl, ?_, ?_⟩
  · unfold create_projectF
    rw [hname]
    simp [hfail]
  · intro k hk
    simp [projRecOf, projBaseKey, hk]
  · intro hk
    refine ⟨by simp [projRecOf, projBaseKey, hk], ?_, ?_⟩
    · simp
    · intro c hc
      simp only [upperChars, List.mem_map] at hc
      obtain ⟨a, _, rfl⟩ := hc
      exact char_toUpper_isLower a

/-- Witness for claim C6 at a concrete name-only input. -/
theorem c6_project_key_derivation_witness :
    (ProjectInput.mk none (some "demo app") none none).name = some "demo app" ∧
    noFail demoStore.opIndex = false ∧
    (∃ st1 p,
      create_projectF noFail (ProjectInput.mk none (some "demo app") none none) demoStore
        = .ok (st1, p) ∧
      p.key = projBaseKey (ProjectInput.mk none (some "demo app") none none) "demo app"
          ++ Nat.repr (demoStore.now % 10000) ∧
      (∀ k, (ProjectInput.mk none (some "demo app") none none).key = some k →
        p.key = k ++ Nat.repr (demoStore.now % 10000)) ∧
      ((ProjectInput.mk none (some "demo app") none none).key = none →
        p.key = String.mk (upperChars ("demo app".data.take 4))
            ++ Nat.repr (demoStore.now % 10000) ∧
        ("demo app".data.take 4).length ≤ 4 ∧
        ∀ c ∈ upperChars ("demo app".data.take 4), c.isLower = false)) :=
  ⟨rfl, rfl,
    c6_project_key_derivation noFail (ProjectInput.mk none (some "demo app") none none)
      demoStore "demo app" rfl rfl⟩

/-- Extension is reflexive. -/
theorem storeExtends_refl (st : Store) : StoreExtends st st :=
  ⟨List.prefix_refl _, List.prefix_refl _, List.prefix_refl _⟩

/-- Extension is transitive. -/
theorem storeExtends_trans {a b c : Store} (h1 : StoreExtends a b) (h2 : StoreExtends b c) :
    StoreExtends a c :=
  ⟨h1.1.trans h2.1, h1.2.1.trans h2.2.1, h1.2.2.trans h2.2.2⟩

/-- Whatever happens, a create_project call only ever appends. -/
theorem create_projectF_extends (fail : Nat → Bool) (inp : ProjectInput) (st : Store) :
    StoreExtends st (postStore (create_projectF fail inp st)) := by
  unfold create_projectF
  cases hn : inp.name with
  | none => exact storeExtends_refl st
  | some n =>
    dsimp only
    by_cases hf : fail st.opIndex = true
    · rw [if_pos hf]
      exact ⟨List.prefix_refl _, List.prefix_refl _, List.prefix_refl _⟩
    · rw [if_neg hf]
      exact ⟨⟨[projRecOf inp st n], rfl⟩, List.prefix_refl _, List.prefix_refl _⟩

/-- Whatever happens, a create_task call only ever appends. -/
theorem create_taskF_extends (fail : Nat → Bool) (inp : TaskInput) (pid : Nat) (st : Store) :
    StoreExtends st (postStore (create_taskF fail inp pid st)) := by
  unfold create_taskF
  by_cases hf : fail st.opIndex = true
  · rw [if_pos hf]
    exact ⟨List.prefix_refl _, List.prefix_refl _, List.prefix_refl _⟩
  · rw [if_neg hf]
    exact ⟨List.prefix_refl _, List.prefix_refl _, ⟨[taskRecOf inp pid st], rfl⟩⟩

/-- Whatever happens, a create_sprint call only ever appends. -/
theorem create_sprintF_extends (fail : Nat → Bool) (inp : SprintInput) (pid : Nat) (st : Store) :
    StoreExtends st (postStore (create_sprintF fail inp pid st)) := by
  unfold create_sprintF
  by_cases hf : fail st.opIndex = true
  · rw [if_pos hf]
    exact ⟨List.prefix_refl _, List.prefix_refl _, List.prefix_refl _⟩
  · rw [if_neg hf]
    exact ⟨List.prefix_refl _, ⟨[sprintRecOf inp pid st], rfl⟩, List.prefix_refl _⟩

/-- The sprint loop only ever appends, even when it stops on a fault. -/
theorem createSprintsF_extends (fail : Nat → Bool) (pid : Nat) :
    ∀ (ms : List Milestone) (st : Store),
      StoreExtends st (postStore (createSprintsF fail pid ms st))
  | [], st => storeExtends_refl st
  | m :: ms, st => by
    have h0 := create_sprintF_extends fail (milestoneSprintInput m) pid st
    unfold createSprintsF
    cases h1 : create_sprintF fail (milestoneSprintInput m) pid st with
    | error e =>
      rw [h1] at h0
      exact h0
    | ok p =>
      obtain ⟨st1, s⟩ := p
      rw [h1] at h0
      dsimp only
      have h2 := createSprintsF_extends fail pid ms st1
      cases h3 : createSprintsF fail pid ms st1 with
      | error e2 =>
        rw [h3] at h2
        exact storeExtends_trans h0 h2
      | ok q =>
        obtain ⟨st2, recs⟩ := q
        rw [h3] at h2
        exact storeExtends_trans h0 h2

/-- The task loop only ever appends, even when it stops on a fault. -/
theorem createTasksF_extends (fail : Nat → Bool) (pid : Nat) :
    ∀ (ds : List PlanTask) (st : Store),
      StoreExtends st (postStore (createTasksF fail pid ds st))
  | [], st => storeExtends_refl st
  | d :: ds, st => by
    have h0 := create_taskF_extends fail (planTaskInput d) pid st
    unfold createTasksF
    cases h1 : create_taskF fail (planTaskInput d) pid st with
    | error e =>
      rw [h1] at h0
      exact h0
    | ok p =>
      obtain ⟨st1, t⟩ := p
      rw [h1] at h0
      dsimp only
      have h2 := createTasksF_extends fail pid ds st1
      cases h3 : createTasksF fail pid ds st1 with
      | error e2 =>
        rw [h3] at h2
        exact storeExtends_trans h0 h2
      | ok q =>
        obtain ⟨st2, recs⟩ := q
        rw [h3] at h2
        exact storeExtends_trans h0 h2

/-- Under any fault pattern, plan execution only ever appends to the store:
the state reached on failure keeps everything committed before the fault. -/
theorem execute_planF_extends (fail : Nat → Bool) (plan : GenPlan) (st : Store) :
    StoreExtends st (postStore (execute_planF fail plan st)) := by
  have h0 := create_projectF_extends fail
    { key := none, name := plan.projectName, description := plan.overview,
      category := some "ai-generated" } st
  unfold execute_planF
  cases hp : create_projectF fail
      { key := none, name := plan.projectName, description := plan.overview,
        category := some "ai-generated" } st with
  | error e =>
    rw [hp] at h0
    exact h0
  | ok pr =>
    obtain ⟨st1, proj⟩ := pr
    rw [hp] at h0
    dsimp only
    have h1 := createSprintsF_extends fail proj.id plan.milestones st1
    cases hs : createSprintsF fail proj.id plan.milestones st1 with
    | error e2 =>
      rw [hs] at h1
      exact storeExtends_trans h0 h1
    | ok sp =>
      obtain ⟨st2, sprints⟩ := sp
      rw [hs] at h1
      dsimp only
      have h2 := createTasksF_extends fail proj.id (effectiveTasks plan) st2
      cases htk : createTasksF fail proj.id (effectiveTasks plan) st2 with
      | error e3 =>
        rw [htk] at h2
        exact storeExtends_trans h0 (storeExtends_trans h1 h2)
      | ok tp =>
        obtain ⟨st3, tasks⟩ := tp
        rw [htk] at h2
        exact storeExtends_trans h0 (storeExtends_trans h1 h2)

/-- Claim C9: every entity is committed independently and never rolled back:
under any fault pattern the reached store extends the initial one, and in the
concrete run where the fourth commit (task three) fails, the project and the
first two tasks remain committed in the error state. -/
theorem c9_partial_execution_no_rollback :
    (∀ (fail : Nat → Bool) (plan : GenPlan) (st : Store),
      StoreExtends st (postStore (execute_planF fail plan st))) ∧
    (∃ e, execute_planF c9fail c9plan demoStore = .error e ∧
      e.projects.length = 1 ∧ e.tasks.length = 2 ∧ e.sprints.length = 0) := by
  constructor
  · intro fail plan st
    exact execute_planF_extends fail plan st
  · exact ⟨_, rfl, rfl, rfl, rfl⟩

/-- Witness for the amended claim C3 at a concrete fenced response. -/
theorem c3_short_response_clarification_witness :
    pyJsonLoads (stripCodeFences "```json\nhello\n```".data) = none ∧
    (((stripCodeFences "```json\nhello\n```".data).length < 500 →
        generate_task_list_post "```json\nhello\n```".data
          = TaskListOutcome.question (stripCodeFences "```json\nhello\n```".data)) ∧
      (500 ≤ (stripCodeFences "```json\nhello\n```".data).length →
        generate_task_list_post "```json\nhello\n```".data = TaskListOutcome.parseError)) :=
  ⟨rfl, c3_short_response_clarification "```json\nhello\n```".data rfl⟩

/-- The resolver loop is exactly first-match search in store iteration
order. -/
theorem findTargetTask_eq_find (target : List Char) :
    ∀ tasks : List TaskRec,
      findTargetTask target tasks = tasks.find? (taskMatchesTarget target) := by
  intro tasks
  induction tasks with
  | nil => rfl
  | cons t ts ih =>
    by_cases h : taskMatchesTarget target t
    · simp [findTargetTask, List.find?_cons_of_pos, h]
    · simp only [findTargetTask, if_neg h, List.find?_cons_of_neg _ h, ih]

/-- The sub-task loop with no store faults succeeds and commits exactly one
task per sub-task name, touching no other entity list. -/
theorem createSubtasksF_noFail_spec (pid : Nat) (d : TLDraft) :
    ∀ (ss : List String) (st : Store),
      ∃ st2, createSubtasksF noFail pid d ss st = .ok st2 ∧
        st2.tasks.length = st.tasks.length + ss.length ∧
        st2.projects = st.projects ∧ st2.sprints = st.sprints := by
  intro ss
  induction ss with
  | nil =>
    intro st
    exact ⟨st, rfl, by simp, rfl, rfl⟩
  | cons s ss ih =>
    intro st
    obtain ⟨st2, heq, hlen, hproj, hspr⟩ := ih (stAfterTask (bulkSubTaskInput d s) pid st)
    refine ⟨st2, ?_, ?_, ?_, ?_⟩
    · unfold createSubtasksF
      rw [show create_taskF noFail (bulkSubTaskInput d s) pid st
            = .ok (stAfterTask (bulkSubTaskInput d s) pid st,
                   taskRecOf (bulkSubTaskInput d s) pid st) from rfl]
      dsimp only
      rw [heq]
    · rw [hlen]
      simp [stAfterTask]
      omega
    · exact hproj
    · exact hspr

/-- Claim C7: all resolver outcomes are structured results.  Conjuncts:
resolution is first-match substring search; a missing target yields a
success=false result naming the lowered search string; update merges and
persists; delete removes the matched task; any other action yields the
unknown-action result; an interpretation failure is caught and returned as
an error result; and on the spec example, target login matches only the
task titled Implement login. -/
theorem c7_modification_resolver_outcomes :
    (∀ (target : List Char) (tasks : List TaskRec),
      findTargetTask target tasks = tasks.find? (taskMatchesTarget target)) ∧
    (∀ (plan : ModIntent) (tasks : List TaskRec),
      findTargetTask (lowerChars (plan.targetTaskName.getD "").data) tasks = none →
      modify_taskCore (.ok plan) tasks =
        ({ success := false, action := none,
           message := "Could not find task matching \x27"
             ++ String.mk (lowerChars (plan.targetTaskName.getD "").data) ++ "\x27",
           task := none }, tasks)) ∧
    (∀ (plan : ModIntent) (tasks : List TaskRec) (t : TaskRec),
      findTargetTask (lowerChars (plan.targetTaskName.getD "").data) tasks = some t →
      plan.action = some "update" →
      modify_taskCore (.ok plan) tasks =
        ({ success := true, action := some "update",
           message := "Updated task \x27"
             ++ pyShowOpt (applyUpdates t plan.updates).content ++ "\x27",
           task := some (applyUpdates t plan.updates) },
         tasks.map (fun u => if u.id = t.id then applyUpdates t plan.updates else u))) ∧
    (∀ (plan : ModIntent) (tasks : List TaskRec) (t : TaskRec),
      findTargetTask (lowerChars (plan.targetTaskName.getD "").data) tasks = some t →
      plan.action = some "delete" →
      modify_taskCore (.ok plan) tasks =
        ({ success := true, action := some "delete",
           message := "Deleted task \x27" ++ pyShowOpt t.content ++ "\x27",
           task := some t },
         tasks.filter (fun u => u.id ≠ t.id))) ∧
    (∀ (plan : ModIntent) (tasks : List TaskRec) (t : TaskRec),
      findTargetTask (lowerChars (plan.targetTaskName.getD "").data) tasks = some t →
      plan.action ≠ some "update" → plan.action ≠ some "delete" →
      modify_taskCore (.ok plan) tasks =
        ({ success := false, action := none, message := "Unknown action",
           task := none }, tasks)) ∧
    (∀ (e : String) (tasks : List TaskRec),
      modify_taskCore (.error e) tasks =
        ({ success := false, action := none,
           message := "Error modifying task: " ++ e, task := none }, tasks)) ∧
    (taskMatchesTarget "login".data demoTask1 = true ∧
      taskMatchesTarget "login".data demoTask2 = false ∧
      findTargetTask "login".data [demoTask1, demoTask2] = some demoTask1) := by
  refine ⟨findTargetTask_eq_find, ?_, ?_, ?_, ?_, ?_, ?_⟩
  · intro plan tasks hnone
    unfold modify_taskCore
    dsimp only
    rw [hnone]
  · intro plan tasks t hfind hact
    unfold modify_taskCore
    dsimp only
    rw [hfind]
    simp [hact]
  · intro plan tasks t hfind hact
    unfold modify_taskCore
    dsimp only
    rw [hfind, hact]
    simp
  · intro plan tasks t hfind h1 h2
    unfold modify_taskCore
    dsimp only
    rw [hfind]
    simp [h1, h2]
  · intro e tasks
    rfl
  · exact ⟨by decide, by decide, by decide⟩

/-- Witness for claim C7: the not-found branch at a concrete project task
set. -/
theorem c7_modification_resolver_outcomes_witness :
    findTargetTask (lowerChars (demoIntentMissing.targetTaskName.getD "").data)
        [demoTask1, demoTask2] = none ∧
    modify_taskCore (.ok demoIntentMissing) [demoTask1, demoTask2] =
      ({ success := false, action := none,
         message := "Could not find task matching \x27"
           ++ String.mk (lowerChars (demoIntentMissing.targetTaskName.getD "").data) ++ "\x27",
         task := none }, [demoTask1, demoTask2]) :=
  ⟨by decide,
    c7_modification_resolver_outcomes.2.1 demoIntentMissing [demoTask1, demoTask2] (by decide)⟩

/-- Claim C8: the summarizer never propagates a failure: on success it
returns the stripped content, on any backend failure it returns the fixed
apology, and the outcome is independent of whether the diagnostic log write
itself succeeds. -/
theorem c8_summarizer_never_fails :
    ∀ (backend : Except String String) (log1 log2 : Bool),
      (∀ e, backend = .error e →
        generate_natural_language_responseM backend log1 = apologyMessage) ∧
      generate_natural_language_responseM backend log1
        = generate_natural_language_responseM backend log2 ∧
      (∀ s, backend = .ok s →
        generate_natural_language_responseM backend log1 = pyStripStr s) := by
  intro backend log1 log2
  refine ⟨?_, ?_, ?_⟩
  · intro e he
    rw [he]
    rfl
  · cases backend <;> rfl
  · intro s hs
    rw [hs]
    rfl

/-- Witness for claim C8 at a concrete backend failure. -/
theorem c8_summarizer_never_fails_witness :
    generate_natural_language_responseM (Except.error "rate limit") true = apologyMessage :=
  (c8_summarizer_never_fails (Except.error "rate limit") true false).1 "rate limit" rfl

/-- Claim C10: with a project id present and no clarification question, the
bulk branch returns inside the first loop iteration: only the first draft
(plus its sub-tasks) is created, the result carries exactly that one
top-level task and reports tasks_created = 1 regardless of the number of
drafts; with an empty draft list the branch produces no response value. -/
theorem c10_bulk_branch_first_iteration_return :
    (∀ (tl : TaskListValue) (pid : Nat) (st : Store) (d : TLDraft) (ds : List TLDraft),
      tl.question = none → tl.tasks = d :: ds →
      ∃ st2 task, bulkCreateBranch noFail tl pid st = .ok (st2, .response [task] 1) ∧
        task.projectId = pid ∧
        task.content = pyOrOpt d.name none ∧
        task.tags = ["ai-generated"] ∧
        st2.tasks.length = st.tasks.length + 1 + d.subTasks.length ∧
        st2.projects = st.projects ∧ st2.sprints = st.sprints) ∧
    (∀ (tl : TaskListValue) (pid : Nat) (st : Store),
      tl.question = none → tl.tasks = [] →
      bulkCreateBranch noFail tl pid st = .ok (st, .noResponse)) := by
  constructor
  · intro tl pid st d ds hq hts
    obtain ⟨st2, hsub, hlen, hproj, hspr⟩ :=
      createSubtasksF_noFail_spec pid d d.subTasks
        (stAfterTask (bulkMainTaskInput d) pid st)
    refine ⟨st2, taskRecOf (bulkMainTaskInput d) pid st, ?_, rfl, rfl, rfl, ?_, ?_, ?_⟩
    · unfold bulkCreateBranch
      rw [hq, hts]
      dsimp only [optTruthy]
      rw [show create_taskF noFail (bulkMainTaskInput d) pid st
            = .ok (stAfterTask (bulkMainTaskInput d) pid st,
                   taskRecOf (bulkMainTaskInput d) pid st) from rfl]
      dsimp only
      rw [hsub]
      exact rfl
    · rw [hlen]
      simp [stAfterTask]
    · exact hproj
    · exact hspr
  · intro tl pid st hq hts
    unfold bulkCreateBranch
    rw [hq, hts]
    exact rfl

/-- Witness for claim C10 at a task list of two drafts: one task created,
tasks_created reported as 1. -/
theorem c10_bulk_branch_first_iteration_return_witness :
    c10taskList.question = none ∧
    c10taskList.tasks
      = { name := some "First", description := some "one",
          priority := some "high", estimatedHours := none,
          assignee := none, assignmentReasoning := none,
          subTasks := ["sub a", "sub b"] } ::
        [{ name := some "Second", description := none,
           priority := none, estimatedHours := none,
           assignee := none, assignmentReasoning := none,
           subTasks := [] }] ∧
    (∃ st2 task, bulkCreateBranch noFail c10taskList 7 demoStore
        = .ok (st2, .response [task] 1) ∧
      task.projectId = 7 ∧
      task.content = pyOrOpt (some "First") none ∧
      task.tags = ["ai-generated"] ∧
      st2.tasks.length = demoStore.tasks.length + 1 + (["sub a", "sub b"] : List String).length ∧
      st2.projects = demoStore.projects ∧ st2.sprints = demoStore.sprints) :=
  ⟨rfl, rfl,
    c10_bulk_branch_first_iteration_return.1 c10taskList 7 demoStore
      { name := some "First", description := some "one",
        priority := some "high", estimatedHours := none,
        assignee := none, assignmentReasoning := none,
        subTasks := ["sub a", "sub b"] }
      [{ name := some "Second", description := none,
         priority := none, estimatedHours := none,
         assignee := none, assignmentReasoning := none,
         subTasks := [] }]
      rfl rfl⟩

/-- Bumping a key increments its count. -/
theorem lookupCount_bump_self (a : String) :
    ∀ cs : List (String × Nat), lookupCount (bumpCount cs a) a = lookupCount cs a + 1 := by
  intro cs
  induction cs with
  | nil => simp [bumpCount, lookupCount]
  | cons kv rest ih =>
    obtain ⟨k, v⟩ := kv
    by_cases h : k = a
    · subst h
      simp [bumpCount, lookupCount]
    · simp [bumpCount, lookupCount, h, ih]

/-- Bumping one key leaves every other lookup unchanged. -/
theorem lookupCount_bump_other (a b : String) (hne : b ≠ a) :
    ∀ cs : List (String × Nat), lookupCount (bumpCount cs a) b = lookupCount cs b := by
  have hab : a ≠ b := fun h => hne h.symm
  intro cs
  induction cs with
  | nil => simp [bumpCount, lookupCount, hab]
  | cons kv rest ih =>
    obtain ⟨k, v⟩ := kv
    by_cases h : k = a
    · subst h
      simp [bumpCount, lookupCount, hab]
    · simp only [bumpCount, if_neg h, lookupCount]
      by_cases h2 : k = b
      · simp [h2]
      · simp [h2, ih]

/-- The keys of the counts dict, in insertion order. -/
def keysOf (cs : List (String × Nat)) : List String := cs.map (fun kv => kv.1)

/-- Bumping updates a key in place or appends a new one. -/
theorem keysOf_bump (a : String) :
    ∀ cs : List (String × Nat),
      keysOf (bumpCount cs a) = if a ∈ keysOf cs then keysOf cs else keysOf cs ++ [a] := by
  intro cs
  induction cs with
  | nil => simp [bumpCount, keysOf]
  | cons kv rest ih =>
    obtain ⟨k, v⟩ := kv
    by_cases h : k = a
    · subst h
      simp [bumpCount, keysOf]
    · have hka : ¬ (k = a) := h
      simp only [bumpCount, if_neg h, keysOf, List.map_cons] at ih ⊢
      rw [ih]
      have hak : ¬ (a = k) := fun hh => hka hh.symm
      by_cases h2 : a ∈ List.map (fun kv => kv.1) rest
      · simp [keysOf, h2, hak]
      · simp [keysOf, h2, hak]

/-- Bumping preserves distinctness of the keys. -/
theorem nodup_keys_bump (a : String) (cs : List (String × Nat))
    (h : (keysOf cs).Nodup) : (keysOf (bumpCount cs a)).Nodup := by
  rw [keysOf_bump]
  by_cases hm : a ∈ keysOf cs
  · simp [hm, h]
  · simp only [hm, if_neg, if_false]
    exact List.Nodup.append h (List.nodup_singleton a) (by simpa using hm)

/-- A key with a nonzero count is present. -/
theorem mem_keys_of_lookup_ne (a : String) :
    ∀ cs : List (String × Nat), lookupCount cs a ≠ 0 → a ∈ keysOf cs := by
  intro cs
  induction cs with
  | nil => simp [lookupCount]
  | cons kv rest ih =>
    obtain ⟨k, v⟩ := kv
    by_cases h : k = a
    · subst h
      simp [keysOf]
    · simp only [lookupCount, if_neg h]
      intro hne
      simp only [keysOf, List.map_cons, List.mem_cons]
      exact Or.inr (ih hne)

/-- A present key pairs with its first-match count. -/
theorem mem_of_mem_keys (a : String) :
    ∀ cs : List (String × Nat), a ∈ keysOf cs → (a, lookupCount cs a) ∈ cs := by
  intro cs
  induction cs with
  | nil => simp [keysOf]
  | cons kv rest ih =>
    obtain ⟨k, v⟩ := kv
    by_cases h : k = a
    · subst h
      intro _
      simp [lookupCount]
    · intro hm
      simp only [keysOf, List.map_cons, List.mem_cons] at hm
      rcases hm with hm | hm
      · exact absurd hm (fun hh => h hh.symm)
      · simp only [lookupCount, if_neg h, List.mem_cons]
        exact Or.inr (ih hm)

/-- With distinct keys, membership determines the lookup. -/
theorem lookup_of_mem_nodup (a : String) (v : Nat) :
    ∀ cs : List (String × Nat), (keysOf cs).Nodup → (a, v) ∈ cs →
      lookupCount cs a = v := by
  intro cs
  induction cs with
  | nil => simp
  | cons kv rest ih =>
    obtain ⟨k, w⟩ := kv
    intro hnd hm
    simp only [keysOf, List.map_cons, List.nodup_cons] at hnd
    rcases List.mem_cons.mp hm with hm | hm
    · injection hm with ha hv
      subst ha
      subst hv
      simp [lookupCount]
    · have hka : ¬ (k = a) := by
        intro hk
        subst hk
        exact hnd.1 (by simpa [keysOf] using List.mem_map_of_mem (fun kv => kv.1) hm)
      simp only [lookupCount, if_neg hka]
      exact ih hnd.2 hm

/-- The contribution of one task to the count of one key. -/
theorem openContrib_cons (t : HTask) (ts : List HTask) (a : String) :
    openContrib (t :: ts) a =
      openContrib ts a +
        (if t.assignee = some a ∧ a ≠ "" ∧ t.status ≠ "Done" then 1 else 0) := by
  unfold openContrib openCount
  by_cases ha : a = ""
  · simp [ha]
  · by_cases hc : t.assignee = some a ∧ t.status ≠ "Done"
    · simp [ha, List.filter_cons, hc]
    · simp [ha, List.filter_cons, hc]

/-- The assignee_counts loop adds exactly the open-task contribution of each
key. -/
theorem assigneeCountsAux_lookup (a : String) :
    ∀ (ts : List HTask) (cs : List (String × Nat)),
      lookupCount (assigneeCountsAux ts cs) a = lookupCount cs a + openContrib ts a := by
  intro ts
  induction ts with
  | nil =>
    intro cs
    simp [assigneeCountsAux, openContrib, openCount]
  | cons t ts ih =>
    intro cs
    unfold assigneeCountsAux
    rw [ih, openContrib_cons]
    cases ht : t.assignee with
    | none => simp [ht]
    | some b =>
      dsimp only
      by_cases hg : b ≠ "" ∧ t.status ≠ "Done"
      · rw [if_pos hg]
        by_cases hba : b = a
        · subst hba
          rw [lookupCount_bump_self]
          simp [hg.1, hg.2]
          omega
        · rw [lookupCount_bump_other b a (fun h => hba h.symm)]
          have hcond : ¬ (some b = some a ∧ a ≠ "" ∧ t.status ≠ "Done") := by
            rintro ⟨hsome, _, _⟩
            injection hsome with hba2
            exact hba hba2
          rw [if_neg hcond]
          omega
      · rw [if_neg hg]
        have hcond : ¬ (some b = some a ∧ a ≠ "" ∧ t.status ≠ "Done") := by
          rintro ⟨hsome, hane, hstat⟩
          injection hsome with hba2
          exact hg ⟨by rw [hba2]; exact hane, hstat⟩
        rw [if_neg hcond]
        omega

/-- The loop builds a dict with distinct keys. -/
theorem assigneeCountsAux_nodup :
    ∀ (ts : List HTask) (cs : List (String × Nat)),
      (keysOf cs).Nodup → (keysOf (assigneeCountsAux ts cs)).Nodup := by
  intro ts
  induction ts with
  | nil =>
    intro cs h
    exact h
  | cons t ts ih =>
    intro cs h
    unfold assigneeCountsAux
    cases ht : t.assignee with
    | none => exact ih cs h
    | some b =>
      dsimp only
      by_cases hg : b ≠ "" ∧ t.status ≠ "Done"
      · rw [if_pos hg]
        exact ih _ (nodup_keys_bump b cs h)
      · rw [if_neg hg]
        exact ih cs h

/-- Membership in the overloaded list is exactly an open-task count above
five for a truthy assignee name. -/
theorem mem_overloaded_iff (tasks : List HTask) (a : String) :
    (a ∈ ((assigneeCounts tasks).filter (fun kv => 5 < kv.2)).map (fun kv => kv.1)) ↔
      5 < openContrib tasks a := by
  have hlook : lookupCount (assigneeCounts tasks) a = openContrib tasks a := by
    have h := assigneeCountsAux_lookup a tasks []
    simpa [assigneeCounts, lookupCount] using h
  have hnd : (keysOf (assigneeCounts tasks)).Nodup :=
    assigneeCountsAux_nodup tasks [] (by simp [keysOf])
  constructor
  · intro hmem
    simp only [List.mem_map, List.mem_filter] at hmem
    obtain ⟨⟨k, v⟩, ⟨hin, hv⟩, hk⟩ := hmem
    simp only at hk
    subst hk
    have hl := lookup_of_mem_nodup k v (assigneeCounts tasks) hnd hin
    rw [hlook] at hl
    simp only [decide_eq_true_eq] at hv
    omega
  · intro h5
    have hne : lookupCount (assigneeCounts tasks) a ≠ 0 := by
      rw [hlook]
      omega
    have hkeys := mem_keys_of_lookup_ne a (assigneeCounts tasks) hne
    have hmem := mem_of_mem_keys a (assigneeCounts tasks) hkeys
    refine List.mem_map.mpr
      ⟨(a, lookupCount (assigneeCounts tasks) a), List.mem_filter.mpr ⟨hmem, ?_⟩, rfl⟩
    simp only [decide_eq_true_eq]
    rw [hlook]
    exact h5

/-- Claim C4, counterexample: on one hundred tasks with twenty-nine Done,
the code computes int((29/100)*100) in binary64, which is 28, while the
claimed floor(100 x 29 / 100) is 29 (the float product of the double
nearest 0.29 with 100 falls just below 29 and truncation loses one). -/
theorem c4_counterexample :
    get_project_health c4tasks = HealthResult.stats 100 28 0 [] "Low" ∧
    (100 * (29 : ℚ)) / 100 = 29 ∧
    floatRatePct 29 100 = 28 ∧
    (100 * 29) / 100 = 29 ∧
    (28 : Int) ≠ 29 := by
  refine ⟨by decide, by norm_num, by decide, by decide, by decide⟩

/-- Claim C4 (amended): the Health Analyzer is a pure aggregation: the empty
task set yields the distinguished empty result with no division; otherwise
the result reports the task total, the completion rate as Python
int((completed/total)*100) evaluated in binary64 floating point (equal to
floor(100 x completed/total) except when float rounding loses one, as at 29
of 100), the non-empty assignees with more than five non-Done tasks, in
first-appearance order, as overloaded members (an assignee with exactly
five is excluded), and burnout High exactly when that list is non-empty.
The concrete conjuncts check the spec examples: ten tasks with four Done
give rate 40, an assignee with six open tasks is overloaded with High risk,
one with exactly five is not. -/
theorem c4_health_analyzer :
    (get_project_health [] = HealthResult.empty) ∧
    (∀ tasks : List HTask, tasks ≠ [] →
      ∃ over : List String,
        get_project_health tasks = HealthResult.stats tasks.length
          ((floatRatePct (tasks.filter (fun t => t.status = "Done")).length
              tasks.length : Nat) : Int)
          ((tasks.filter (fun t => t.status = "In Progress")).length)
          over
          (if over ≠ [] then "High" else "Low") ∧
        (∀ a : String, a ∈ over ↔ (a ≠ "" ∧ 5 < openCount tasks a))) ∧
    get_project_health c4tasksB = HealthResult.stats 10 40 0 ["alice"] "High" ∧
    get_project_health c4tasksC = HealthResult.stats 11 0 5 ["alice"] "High" ∧
    ("bob" ∉ (["alice"] : List String)) := by
  refine ⟨rfl, ?_, by decide, by decide, by decide⟩
  intro tasks hne
  refine ⟨((assigneeCounts tasks).filter (fun kv => 5 < kv.2)).map (fun kv => kv.1), ?_, ?_⟩
  · unfold get_project_health
    have h0 : ¬ (tasks.length = 0) := by
      simpa [List.length_eq_zero] using hne
    rw [if_neg h0]
  · intro a
    rw [mem_overloaded_iff]
    unfold openContrib
    by_cases ha : a = ""
    · simp [ha]
    · simp [ha]

/-- Witness for the amended claim C4 at the ten-task example. -/
theorem c4_health_analyzer_witness :
    (c4tasksB ≠ []) ∧
    (∃ over : List String,
      get_project_health c4tasksB = HealthResult.stats c4tasksB.length
        ((floatRatePct (c4tasksB.filter (fun t => t.status = "Done")).length
            c4tasksB.length : Nat) : Int)
        ((c4tasksB.filter (fun t => t.status = "In Progress")).length)
        over
        (if over ≠ [] then "High" else "Low") ∧
      (∀ a : String, a ∈ over ↔ (a ≠ "" ∧ 5 < openCount c4tasksB a))) :=
  ⟨by decide, c4_health_analyzer.2.1 c4tasksB (by decide)⟩

end PMAgent
